import Mathlib

/-!
Verification of the page-object / test-helper layer of `testcafe-testapp`.

The repository is a TestCafe end-to-end suite driving a todo application.
We embed the observable browser state (todo list rows, dashboard DOM,
cookies, local storage, the performance-timer map) as plain data, and the
page-object operations from `apps/web/tests/page-objects/*.ts` and
`apps/web/tests/helpers/test-helpers.ts` as functions on that data.

Strings are modelled as `List Char` (written `Str` below) so that
character-level operations such as TestCafe's `withText` substring filter
and the `/Welcome (.+)/` regular-expression match can be stated and
computed directly.

Operations whose effect is implemented by the application under test
(which is not part of the test layer's sources) are modelled from the
specification; each such definition carries a doc comment starting with
`Modelled from the spec:`.
-/

set_option autoImplicit false

namespace TestCafeApp

/-- Strings, modelled as lists of characters. -/
abbrev Str := List Char

/-! ### Generic list helpers -/

/-- Index of the first element satisfying `p`, if any.  This is the
resolution rule of a TestCafe `Selector`: when several DOM nodes match,
actions apply to the first one in document order. -/
def findFirst {α : Type} (p : α → Bool) : List α → Option Nat
  | [] => none
  | a :: as => if p a then some 0 else (findFirst p as).map (· + 1)

/-- Replace the element at index `i` by `f` of it (out-of-range indices
leave the list unchanged). -/
def modifyAt {α : Type} (f : α → α) : Nat → List α → List α
  | _, [] => []
  | 0, a :: as => f a :: as
  | n + 1, a :: as => a :: modifyAt f n as

/-- Substring containment, the semantics of TestCafe's
`Selector.withText(text)` filter: the element's text must contain `text`
as a (contiguous) substring. -/
def textContains (pat : Str) : Str → Bool
  | [] => pat.isEmpty
  | c :: cs => pat.isPrefixOf (c :: cs) || textContains pat cs

/-! ### Test data generators (`helpers/test-helpers.ts`, `TestHelpers`)

Each generator interpolates `Date.now()` (rendered decimal timestamp) and,
for some, a `Math.random().toString(36).substring(7)` suffix into a string
template.  The rendered interpolation segments are taken as parameters
`ts` and `rand`. -/

namespace TestHelpers

/-- Template `` `test-${Date.now()}-${...}@example.com` ``. -/
def generateEmail (ts rand : Str) : Str :=
  "test-".data ++ ts ++ "-".data ++ rand ++ "@example.com".data

/-- Template `` `Test User ${Date.now()}` ``. -/
def generateName (ts : Str) : Str :=
  "Test User ".data ++ ts

/-- Template `` `TestPass${Date.now()}!` ``. -/
def generatePassword (ts : Str) : Str :=
  "TestPass".data ++ ts ++ "!".data

/-- Template `` `Test Todo ${Date.now()} - ${...}` ``. -/
def generateTodoText (ts rand : Str) : Str :=
  "Test Todo ".data ++ ts ++ " - ".data ++ rand

/-- Whether `getTestDataPattern()`'s regular expression
`/^Test (Todo|User)/` matches a string: it matches exactly the strings
starting with `"Test Todo"` or with `"Test User"`. -/
def matchesTestDataPattern (s : Str) : Bool :=
  "Test Todo".data.isPrefixOf s || "Test User".data.isPrefixOf s

end TestHelpers

/-! ### Performance helper (`helpers/test-helpers.ts`, `PerformanceHelper`)

The process-wide `private static measurements: Map<string, number>` is
modelled as a finite map from keys to timestamps; `Date.now()` is passed
in explicitly as `now`. -/

/-- The `measurements` map: each key is either absent or mapped to the
recorded start timestamp. -/
abbrev Measurements := String → Option Int

/-- The initial, empty `measurements` map. -/
def emptyMeasurements : Measurements := fun _ => none

namespace PerformanceHelper

/-- Source `start(key)`: `this.measurements.set(key, Date.now())`. -/
def start (key : String) (now : Int) (m : Measurements) : Measurements :=
  fun k => if k = key then some now else m k

/-- Source `end(key)` (the name `end` is reserved in Lean, hence the guillemets):
reads the recorded start time, throws
`"No start time found for key: " + key` when the JavaScript guard
`if (!startTime)` fires — which happens when the key is absent, and also
when the recorded timestamp is the falsy number `0` — and otherwise
returns `Date.now() - startTime` after deleting the key. -/
def «end» (key : String) (now : Int) (m : Measurements) :
    Except String (Int × Measurements) :=
  match m key with
  | none => Except.error ("No start time found for key: " ++ key)
  | some startTime =>
    if startTime == 0 then
      Except.error ("No start time found for key: " ++ key)
    else
      Except.ok (now - startTime, fun k => if k = key then none else m k)

end PerformanceHelper

/-! ### Todos page (`page-objects/todos.page.ts` / `home.page.ts`, `TodosPage`)

The observable todo list is the sequence of `ul li` rows; each row shows a
label and a checkbox button with an `aria-checked` attribute. -/

/-- One rendered todo row. -/
structure TodoRow where
  labelText : Str
  completed : Bool
deriving DecidableEq

/-- The rendered todo list, in document order. -/
abbrev TodosDom := List TodoRow

namespace TodosPage

/-- Modelled from the spec: the todos screen component of the application
under test is not among the test layer's sources; per the spec's data
model a `Todo` carries `completed: boolean`, which the checkbox widget
renders as the `aria-checked` attribute `"true"` / `"false"`. -/
def ariaChecked (r : TodoRow) : Str :=
  if r.completed then "true".data else "false".data

/-- Whether a row is picked up by
`this.todoItems.find("label").withText(text)`. -/
def rowMatches (text : Str) (r : TodoRow) : Bool :=
  textContains text r.labelText

/-- Source `getTodoByText(text)`:
`this.todoItems.find("label").withText(text).parent("li")`, i.e. the first
row whose label text contains `text`, represented by its index; `none`
when no row matches. -/
def getTodoByText (text : Str) (dom : TodosDom) : Option Nat :=
  findFirst (rowMatches text) dom

/-- Source `getTodoCount()`: `await this.todoItems.count`. -/
def getTodoCount (dom : TodosDom) : Nat := dom.length

/-- Source `todoExists(text)`: `await this.getTodoByText(text).exists`. -/
def todoExists (text : Str) (dom : TodosDom) : Bool :=
  dom.any (rowMatches text)

/-- Source `isTodoCompleted(index)`: reads `aria-checked` of row `index`'s
checkbox and compares it with `"true"`; `none` when no row exists at
`index` (the selector does not resolve). -/
def isTodoCompleted (index : Nat) (dom : TodosDom) : Option Bool :=
  (dom[index]?).map (fun r => ariaChecked r == "true".data)

/-- Source `addTodo(text)`: types `text` and clicks Add.  Modelled from the spec:
the application's `todo.create({text})` appends a new todo with the given
text and `completed = false`.  For empty text the call does not complete
(TestCafe's `typeText` rejects empty input and the Add button is disabled
on empty input), modelled as `none`. -/
def addTodo (text : Str) (dom : TodosDom) : Option TodosDom :=
  if text.isEmpty then none
  else some (dom ++ [{ labelText := text, completed := false }])

/-- Flip a row's completed flag. -/
def flipRow (r : TodoRow) : TodoRow := { r with completed := !r.completed }

/-- Source `toggleTodoByText(text)`: clicks the checkbox inside the first row
matching `text` (the click fails the test when no row matches, modelled as
`none`).  Modelled from the spec: the application's
`todo.toggle({id, completed})` flips that row's completed flag. -/
def toggleTodoByText (text : Str) (dom : TodosDom) : Option TodosDom :=
  (getTodoByText text dom).map (fun i => modifyAt flipRow i dom)

/-- Source `deleteTodoByText(text)`: clicks the delete button inside the first
row matching `text` (the click fails the test when no row matches,
modelled as `none`).  Modelled from the spec: the application's
`todo.delete({id})` removes that row. -/
def deleteTodoByText (text : Str) (dom : TodosDom) : Option TodosDom :=
  (getTodoByText text dom).map (fun i => dom.eraseIdx i)

/-- Source `getCompletedTodosCount()`: loops over indices `0 .. count-1` counting
the rows for which `isTodoCompleted` holds. -/
def getCompletedTodosCount (dom : TodosDom) : Nat :=
  dom.countP (fun r => ariaChecked r == "true".data)

/-- Source `getIncompleteTodosCount()`: `total - completed`. -/
def getIncompleteTodosCount (dom : TodosDom) : Nat :=
  getTodoCount dom - getCompletedTodosCount dom

/-- Number of rows whose label matches `text` (the quantity the claims
about "exactly one matching row" speak about). -/
def matchCount (text : Str) (dom : TodosDom) : Nat :=
  dom.countP (rowMatches text)

end TodosPage

/-! ### Base page (`page-objects/base.page.ts`, `BasePage`) -/

namespace BasePage

/-- The constructor's default `baseUrl` argument
(`constructor(baseUrl: string = "http://localhost:3001")`). -/
def defaultBaseUrl : String := "http://localhost:3001"

/-- The API server's fixed base URL (spec §6; used by the API-level
suite). -/
def apiBaseUrl : String := "http://localhost:3000"

/-- Source `navigate(path)`: drives the browser to `` `${this.baseUrl}${path}` ``. -/
def navigate (baseUrl path : String) : String := baseUrl ++ path

end BasePage

/-! ### Dashboard page (`page-objects/dashboard.page.ts`, `DashboardPage`)

The dashboard DOM is observed through two selectors: the `h1` page title
and the `p` welcome message (`dashboard.tsx` renders
`<p>Welcome {session.data?.user.name}</p>`). -/

/-- Observable dashboard state after `isLoaded`'s settle wait. -/
structure DashboardDom where
  titleExists : Bool
  welcomeMessage : Str
deriving DecidableEq

namespace DashboardPage

/-- The JavaScript match `message.match(/Welcome (.+)/)`: scan for the
first position where the literal `"Welcome "` matches and is followed by
at least one non-newline character; the capture group takes the rest of
that line.  Returns the capture (`match[1]`), or `none` (`null`). -/
def welcomeCapture : Str → Option Str
  | [] => none
  | c :: cs =>
    let cap := (List.drop 8 (c :: cs)).takeWhile (fun ch => ch ≠ '\n')
    if "Welcome ".data.isPrefixOf (c :: cs) && !cap.isEmpty then some cap
    else welcomeCapture cs

/-- Source `isLoaded()`: whether the `h1` "Dashboard" title exists after the
settle wait. -/
def isLoaded (d : DashboardDom) : Bool := d.titleExists

/-- Source `getUserName()`: the capture of `/Welcome (.+)/` on the welcome
message. -/
def getUserName (d : DashboardDom) : Option Str :=
  welcomeCapture d.welcomeMessage

/-- Source `verifyUserLoggedIn(expectedName?)`: returns `false` when not loaded;
otherwise the JavaScript guard `if (expectedName)` is truthy only for a
provided *non-empty* string, in which case the parsed user name is
compared with `===` against it; in all other cases it returns `true`. -/
def verifyUserLoggedIn (d : DashboardDom) (expectedName : Option Str) : Bool :=
  if !isLoaded d then false
  else
    match expectedName with
    | some n => if n.isEmpty then true else getUserName d == some n
    | none => true

end DashboardPage

/-! ### Sign-up form validation (claim C5)

`authentication.test.ts` observes the validation through
`LoginPage.errorMessage` (the `p.text-red-500` nodes) and
`getCurrentPath()`. -/

namespace SignUpForm

/-- Modelled from the spec: the sign-up form component
(`components/sign-up-form`, used by `routes/login.tsx`) is not among the
test layer's sources.  A simple syntactic check stands in for its email
validator: some `@` with a non-empty local part and a non-empty domain
containing a dot, and no spaces. -/
def emailSyntaxValid (email : Str) : Bool :=
  match findFirst (fun c => c = '@') email with
  | none => false
  | some i =>
    let localPart := email.take i
    let domainPart := email.drop (i + 1)
    !localPart.isEmpty && !domainPart.isEmpty &&
      domainPart.contains '.' && !(email.contains ' ')

/-- What the login screen exposes after a submit: the current
`window.location.pathname` and the rendered `p.text-red-500` validation
texts (read through `LoginPage.errorMessage`). -/
structure SubmitOutcome where
  pathname : String
  errorMessages : List String
deriving DecidableEq

/-- Modelled from the spec: the per-field validation messages the form
renders — name at least 2 characters, syntactically valid email, password
at least 8 characters (the texts asserted verbatim in
`authentication.test.ts`). -/
def signUpErrors (name email password : Str) : List String :=
  (if name.length < 2 then ["Name must be at least 2 characters"] else []) ++
  (if !emailSyntaxValid email then ["Invalid email address"] else []) ++
  (if password.length < 8 then ["Password must be at least 8 characters"] else [])

/-- Modelled from the spec: submitting the sign-up form runs the field
validators and navigates away from `/login` only when every validator
passes; otherwise it stays on `/login` and renders the messages. -/
def submitSignUp (name email password : Str) : SubmitOutcome :=
  if (signUpErrors name email password).isEmpty then
    { pathname := "/dashboard", errorMessages := [] }
  else
    { pathname := "/login", errorMessages := signUpErrors name email password }

end SignUpForm

/-! ### Guest role (`roles/user-roles.ts`, `guestUser`) and cookies

The `guestUser` role's initialization runs, inside the page,
`localStorage.clear()` and then expires every cookie name found in
`document.cookie`.  `document.cookie` exposes only cookies that were set
without the `HttpOnly` attribute, and writes through it cannot touch
`HttpOnly` cookies. -/

/-- A browser cookie as the cookie store holds it. -/
structure Cookie where
  name : Str
  value : Str
  httpOnly : Bool
deriving DecidableEq

/-- Browser-side state the role initialization can observe and mutate. -/
structure BrowserState where
  localStorage : List (Str × Str)
  cookies : List Cookie
deriving DecidableEq

/-- The cookies readable (and deletable) through `document.cookie`. -/
def documentCookies (st : BrowserState) : List Cookie :=
  st.cookies.filter (fun c => !c.httpOnly)

/-- The `defaultCookieAttributes` of the auth configuration
(`packages/auth/src/index.ts`): every auth cookie, including the session
cookie, is created with `httpOnly: true`. -/
structure CookieAttributes where
  sameSite : String
  secure : Bool
  httpOnly : Bool

/-- Value of `advanced.defaultCookieAttributes` from `packages/auth/src/index.ts`. -/
def defaultCookieAttributes : CookieAttributes :=
  { sameSite := "none", secure := true, httpOnly := true }

/-- The `guestUser` role initialization: `localStorage.clear()`, then for
each entry of `document.cookie.split(";")` write
`name=;expires=<past>;path=/`, which deletes that cookie.  Only
non-`HttpOnly` cookies appear in `document.cookie`, so exactly those are
removed. -/
def guestUserInit (st : BrowserState) : BrowserState :=
  { localStorage := [],
    cookies := st.cookies.filter (fun c => c.httpOnly) }

/-! ## Helper lemmas -/

theorem isPrefixOf_append_self (l₁ l₂ : List Char) :
    l₁.isPrefixOf (l₁ ++ l₂) = true := by
  induction l₁ with
  | nil => simp [List.isPrefixOf]
  | cons a as ih => simp [List.isPrefixOf, ih]

theorem isPrefixOf_self (l : List Char) : l.isPrefixOf l = true := by
  nth_rewrite 2 [← List.append_nil l]
  exact isPrefixOf_append_self l []

theorem isPrefixOf_false_of_mid_ne (common : List Char) {a b : Char}
    (h : (a == b) = false) (as bs : List Char) :
    (common ++ a :: as).isPrefixOf (common ++ b :: bs) = false := by
  induction common with
  | nil => simp [List.isPrefixOf, h]
  | cons c cs ih => simp [List.isPrefixOf, ih]

theorem textContains_self (l : Str) : textContains l l = true := by
  cases l with
  | nil => rfl
  | cons c cs => simp [textContains, isPrefixOf_self]

theorem findFirst_isSome_iff {α : Type} (p : α → Bool) (l : List α) :
    (findFirst p l).isSome = l.any p := by
  induction l with
  | nil => rfl
  | cons a as ih =>
    cases hpa : p a with
    | true => simp [findFirst, hpa]
    | false =>
      simp only [findFirst, hpa, Bool.false_eq_true, if_false, List.any_cons,
        Bool.false_or, ← ih]
      cases findFirst p as <;> rfl

theorem findFirst_some_lt {α : Type} {p : α → Bool} {l : List α} {i : Nat}
    (h : findFirst p l = some i) : i < l.length := by
  induction l generalizing i with
  | nil => simp [findFirst] at h
  | cons a as ih =>
    by_cases hpa : p a = true
    · simp [findFirst, hpa] at h
      subst h
      exact Nat.succ_pos as.length
    · simp [findFirst, hpa] at h
      obtain ⟨j, hj, rfl⟩ := h
      exact Nat.succ_lt_succ (ih hj)

theorem findFirst_modifyAt {α : Type} {p : α → Bool} {f : α → α}
    (hf : ∀ a, p (f a) = p a) (i : Nat) (l : List α) :
    findFirst p (modifyAt f i l) = findFirst p l := by
  induction l generalizing i with
  | nil => cases i <;> rfl
  | cons a as ih =>
    cases i with
    | zero => simp [modifyAt, findFirst, hf a]
    | succ n => simp [modifyAt, findFirst, ih n]

theorem modifyAt_modifyAt {α : Type} (f g : α → α) (i : Nat) (l : List α) :
    modifyAt f i (modifyAt g i l) = modifyAt (fun a => f (g a)) i l := by
  induction l generalizing i with
  | nil => cases i <;> rfl
  | cons a as ih =>
    cases i with
    | zero => rfl
    | succ n => simp [modifyAt, ih]

theorem modifyAt_eq_self {α : Type} {f : α → α} (hf : ∀ a, f a = a)
    (i : Nat) (l : List α) : modifyAt f i l = l := by
  induction l generalizing i with
  | nil => cases i <;> rfl
  | cons a as ih =>
    cases i with
    | zero => simp [modifyAt, hf]
    | succ n => simp [modifyAt, ih]

theorem flipRow_flipRow (r : TodoRow) :
    TodosPage.flipRow (TodosPage.flipRow r) = r := by
  cases r
  simp [TodosPage.flipRow]

theorem countP_eraseIdx_of_findFirst {α : Type} {p : α → Bool} {l : List α}
    {i : Nat} (h : findFirst p l = some i) :
    (l.eraseIdx i).countP p + 1 = l.countP p := by
  induction l generalizing i with
  | nil => simp [findFirst] at h
  | cons a as ih =>
    by_cases hpa : p a = true
    · simp only [findFirst, hpa, if_true, Option.some.injEq] at h
      subst h
      simp [List.countP_cons, hpa]
    · simp [findFirst, hpa] at h
      obtain ⟨j, hj, rfl⟩ := h
      have hstep : (a :: as).eraseIdx (j + 1) = a :: as.eraseIdx j := rfl
      rw [hstep]
      simp only [List.countP_cons, hpa, if_false, Nat.add_zero]
      exact ih hj

theorem submitSignUp_mem_of_mem_errors (name email password : Str) (msg : String)
    (h : msg ∈ SignUpForm.signUpErrors name email password) :
    (SignUpForm.submitSignUp name email password).pathname = "/login" ∧
    msg ∈ (SignUpForm.submitSignUp name email password).errorMessages := by
  unfold SignUpForm.submitSignUp
  have hne : (SignUpForm.signUpErrors name email password).isEmpty = false := by
    cases hE : SignUpForm.signUpErrors name email password with
    | nil =>
      rw [hE] at h
      cases h
    | cons a l => rfl
  rw [hne]
  exact ⟨rfl, h⟩

/-! ## Claim theorems -/

/-- C1: for every todo text `t` (non-empty, so the add form accepts it),
immediately after `TodosPage.addTodo(t)` completes, `getTodoCount()`
returns exactly one more than before the call and `todoExists(t)` returns
`true`. -/
theorem addTodo_increments_count_and_exists (text : Str) (dom dom' : TodosDom)
    (h : TodosPage.addTodo text dom = some dom') :
    TodosPage.getTodoCount dom' = TodosPage.getTodoCount dom + 1 ∧
    TodosPage.todoExists text dom' = true := by
  unfold TodosPage.addTodo at h
  by_cases hte : text.isEmpty = true
  · rw [if_pos hte] at h
    cases h
  · rw [if_neg hte] at h
    cases h
    constructor
    · simp [TodosPage.getTodoCount]
    · simp [TodosPage.todoExists, List.any_append, TodosPage.rowMatches,
        textContains_self]

/-- Witness for C1 at the concrete generated text `"Test Todo 1 - a"` and
the empty list. -/
theorem addTodo_increments_count_and_exists_witness :
    TodosPage.addTodo "Test Todo 1 - a".data [] =
      some [{ labelText := "Test Todo 1 - a".data, completed := false }] ∧
    TodosPage.getTodoCount
        [{ labelText := "Test Todo 1 - a".data, completed := false }] =
      TodosPage.getTodoCount ([] : TodosDom) + 1 ∧
    TodosPage.todoExists "Test Todo 1 - a".data
        [{ labelText := "Test Todo 1 - a".data, completed := false }] = true :=
  ⟨rfl, addTodo_increments_count_and_exists "Test Todo 1 - a".data [] _ rfl⟩

/-- C2: for every todo row `r` present in the list whose label text is
exactly `t`, applying `toggleTodoByText(t)` twice in succession restores
the whole list, and in particular that row's completed state as observed
through `isTodoCompleted`'s `aria-checked` reading. -/
theorem toggleTodoByText_twice_restores (t : Str) (dom : TodosDom) (j : Nat)
    (r : TodoRow) (hj : dom[j]? = some r) (hr : r.labelText = t) :
    ∃ dom1 dom2 : TodosDom,
      TodosPage.toggleTodoByText t dom = some dom1 ∧
      TodosPage.toggleTodoByText t dom1 = some dom2 ∧
      dom2 = dom ∧
      TodosPage.isTodoCompleted j dom2 = TodosPage.isTodoCompleted j dom := by
  have hany : dom.any (TodosPage.rowMatches t) = true := by
    rw [List.any_eq_true]
    exact ⟨r, List.getElem?_mem hj,
      by simp [TodosPage.rowMatches, hr, textContains_self]⟩
  have hsome : (findFirst (TodosPage.rowMatches t) dom).isSome = true := by
    rw [findFirst_isSome_iff]
    exact hany
  obtain ⟨i, hi⟩ := Option.isSome_iff_exists.mp hsome
  have hf : ∀ a, TodosPage.rowMatches t (TodosPage.flipRow a) =
      TodosPage.rowMatches t a := fun a => rfl
  have h2 : findFirst (TodosPage.rowMatches t)
      (modifyAt TodosPage.flipRow i dom) = some i := by
    rw [findFirst_modifyAt hf]
    exact hi
  refine ⟨modifyAt TodosPage.flipRow i dom, dom, ?_, ?_, rfl, rfl⟩
  · simp [TodosPage.toggleTodoByText, TodosPage.getTodoByText, hi]
  · simp only [TodosPage.toggleTodoByText, TodosPage.getTodoByText, h2,
      Option.map_some', Option.some.injEq]
    rw [modifyAt_modifyAt]
    exact modifyAt_eq_self (fun a => flipRow_flipRow a) i dom

/-- Witness for C2 at a concrete one-row list. -/
theorem toggleTodoByText_twice_restores_witness :
    ∃ dom1 dom2 : TodosDom,
      TodosPage.toggleTodoByText ['a'] [{ labelText := ['a'], completed := false }] =
        some dom1 ∧
      TodosPage.toggleTodoByText ['a'] dom1 = some dom2 ∧
      dom2 = [{ labelText := ['a'], completed := false }] ∧
      TodosPage.isTodoCompleted 0 dom2 =
        TodosPage.isTodoCompleted 0 [{ labelText := ['a'], completed := false }] :=
  toggleTodoByText_twice_restores ['a'] [{ labelText := ['a'], completed := false }]
    0 { labelText := ['a'], completed := false } rfl rfl

/-- C3 counterexample: with two rows both labelled `"a"`,
`deleteTodoByText("a")` removes only the first matching row, so
`todoExists("a")` still returns `true` afterwards — the claim's
"afterwards `todoExists(t)` returns false" fails for every text that
matches more than one row. -/
theorem deleteTodoByText_duplicate_counterexample :
    TodosPage.deleteTodoByText ['a']
        [{ labelText := ['a'], completed := false },
         { labelText := ['a'], completed := false }] =
      some [{ labelText := ['a'], completed := false }] ∧
    TodosPage.todoExists ['a'] [{ labelText := ['a'], completed := false }] = true := by
  decide

/-- C3 (amended): whenever `deleteTodoByText(t)` completes, it removes
exactly one row, that row matches `t` (the count of matching rows drops by
exactly one), and — provided exactly one row matched `t` before the call —
`todoExists(t)` returns `false` afterwards. -/
theorem deleteTodoByText_removes_one_match (t : Str) (dom dom' : TodosDom)
    (h : TodosPage.deleteTodoByText t dom = some dom') :
    TodosPage.getTodoCount dom' + 1 = TodosPage.getTodoCount dom ∧
    TodosPage.matchCount t dom' + 1 = TodosPage.matchCount t dom ∧
    (TodosPage.matchCount t dom = 1 → TodosPage.todoExists t dom' = false) := by
  unfold TodosPage.deleteTodoByText TodosPage.getTodoByText at h
  rw [Option.map_eq_some'] at h
  obtain ⟨i, hi, hdom'⟩ := h
  subst hdom'
  have hlt : i < dom.length := findFirst_some_lt hi
  have hcount : (dom.eraseIdx i).countP (TodosPage.rowMatches t) + 1 =
      dom.countP (TodosPage.rowMatches t) := countP_eraseIdx_of_findFirst hi
  refine ⟨?_, hcount, ?_⟩
  · unfold TodosPage.getTodoCount
    rw [List.length_eraseIdx, if_pos hlt]
    omega
  · intro h1
    unfold TodosPage.matchCount at h1 hcount
    unfold TodosPage.todoExists
    rw [List.any_eq_false]
    rw [← List.countP_eq_zero (p := TodosPage.rowMatches t)]
    omega

/-- Witness for C3's amended theorem at a concrete one-row list. -/
theorem deleteTodoByText_removes_one_match_witness :
    TodosPage.getTodoCount ([] : TodosDom) + 1 =
      TodosPage.getTodoCount [{ labelText := ['a'], completed := false }] ∧
    TodosPage.matchCount ['a'] ([] : TodosDom) + 1 =
      TodosPage.matchCount ['a'] [{ labelText := ['a'], completed := false }] ∧
    (TodosPage.matchCount ['a'] [{ labelText := ['a'], completed := false }] = 1 →
      TodosPage.todoExists ['a'] ([] : TodosDom) = false) :=
  deleteTodoByText_removes_one_match ['a']
    [{ labelText := ['a'], completed := false }] [] rfl

/-- C4: `PerformanceHelper.end(k)` throws whenever no start timestamp is
recorded for `k`, and a successful `end(k)` returns the elapsed duration
since the recorded start and removes `k` from the map, so a second `end(k)`
throws again. -/
theorem performanceHelper_end_pairing (key : String) (now : Int) (m : Measurements) :
    (m key = none →
      PerformanceHelper.«end» key now m =
        Except.error ("No start time found for key: " ++ key)) ∧
    (∀ d m', PerformanceHelper.«end» key now m = Except.ok (d, m') →
      (∃ startTime, m key = some startTime ∧ d = now - startTime) ∧
      m' key = none ∧
      (∀ now', PerformanceHelper.«end» key now' m' =
        Except.error ("No start time found for key: " ++ key))) := by
  constructor
  · intro h
    simp [PerformanceHelper.«end», h]
  · intro d m' h
    unfold PerformanceHelper.«end» at h
    split at h
    next => exact Except.noConfusion h
    next st heq =>
      split at h
      next => exact Except.noConfusion h
      next hst =>
        have hpair := Except.ok.inj h
        have hd : d = now - st := (congrArg Prod.fst hpair).symm
        have hm' : m' = fun k => if k = key then none else m k :=
          (congrArg Prod.snd hpair).symm
        subst hm'
        refine ⟨⟨st, heq, hd⟩, by simp, ?_⟩
        intro now'
        simp [PerformanceHelper.«end»]

/-- Witness for C4: ending a never-started key errors, and after a
successful `start`/`end` pair the key is gone from the map. -/
theorem performanceHelper_end_pairing_witness :
    (PerformanceHelper.«end» "addTodo" 7 emptyMeasurements =
      Except.error ("No start time found for key: " ++ "addTodo")) ∧
    ((fun k => if k = "addTodo" then none
        else PerformanceHelper.start "addTodo" 2 emptyMeasurements k) "addTodo" =
      none) :=
  ⟨(performanceHelper_end_pairing "addTodo" 7 emptyMeasurements).1 rfl,
   (((performanceHelper_end_pairing "addTodo" 7
        (PerformanceHelper.start "addTodo" 2 emptyMeasurements)).2 5
      (fun k => if k = "addTodo" then none
        else PerformanceHelper.start "addTodo" 2 emptyMeasurements k) rfl).2.1)⟩

/-- C5: submitting the sign-up form with a syntactically invalid email, or
with a password shorter than 8 characters, leaves the pathname at
`"/login"` and renders the respective validation message among the texts
observable through `LoginPage.errorMessage`. -/
theorem signup_validation_errors (name email password : Str) :
    (SignUpForm.emailSyntaxValid email = false →
      (SignUpForm.submitSignUp name email password).pathname = "/login" ∧
      "Invalid email address" ∈
        (SignUpForm.submitSignUp name email password).errorMessages) ∧
    (password.length < 8 →
      (SignUpForm.submitSignUp name email password).pathname = "/login" ∧
      "Password must be at least 8 characters" ∈
        (SignUpForm.submitSignUp name email password).errorMessages) := by
  constructor
  · intro he
    exact submitSignUp_mem_of_mem_errors name email password _
      (by simp [SignUpForm.signUpErrors, he])
  · intro hp
    exact submitSignUp_mem_of_mem_errors name email password _
      (by simp [SignUpForm.signUpErrors, hp])

/-- Witness for C5 at the concrete inputs the test suite uses:
`"invalid-email"` and the short password `"short"`. -/
theorem signup_validation_errors_witness :
    (SignUpForm.emailSyntaxValid "invalid-email".data = false ∧
      (SignUpForm.submitSignUp "Test User".data "invalid-email".data
          "TestPass123!".data).pathname = "/login" ∧
      "Invalid email address" ∈
        (SignUpForm.submitSignUp "Test User".data "invalid-email".data
          "TestPass123!".data).errorMessages) ∧
    (("short".data : Str).length < 8 ∧
      (SignUpForm.submitSignUp "Test User".data "e@a.co".data
          "short".data).pathname = "/login" ∧
      "Password must be at least 8 characters" ∈
        (SignUpForm.submitSignUp "Test User".data "e@a.co".data
          "short".data).errorMessages) :=
  ⟨⟨by decide,
    (signup_validation_errors "Test User".data "invalid-email".data
      "TestPass123!".data).1 (by decide)⟩,
   ⟨by decide,
    (signup_validation_errors "Test User".data "e@a.co".data
      "short".data).2 (by decide)⟩⟩

/-- C6 counterexample: the auth session cookie is created with
`httpOnly: true` (`packages/auth/src/index.ts`), so it never appears in
`document.cookie` and the `guestUser` initialization cannot expire it: it
survives the routine, refuting "every cookie is cleared … including the
auth session cookie". -/
theorem guestUser_httpOnly_counterexample :
    (guestUserInit
        { localStorage := [],
          cookies := [{ name := "better-auth.session_token".data,
                        value := ['s'],
                        httpOnly := defaultCookieAttributes.httpOnly }] }).cookies =
      [{ name := "better-auth.session_token".data, value := ['s'],
         httpOnly := defaultCookieAttributes.httpOnly }] ∧
    (guestUserInit
        { localStorage := [],
          cookies := [{ name := "better-auth.session_token".data,
                        value := ['s'],
                        httpOnly := defaultCookieAttributes.httpOnly }] }).cookies ≠
      [] := by
  decide

/-- C6 (amended): after the `guestUser` initialization the local storage
is empty and every cookie readable via `document.cookie` (i.e. every
non-`HttpOnly` cookie) has been cleared; `HttpOnly` cookies — such as the
auth session cookie — are untouched and survive. -/
theorem guestUser_clears_visible_state (st : BrowserState) :
    (guestUserInit st).localStorage = [] ∧
    documentCookies (guestUserInit st) = [] ∧
    (∀ c ∈ st.cookies, c.httpOnly = true → c ∈ (guestUserInit st).cookies) := by
  refine ⟨rfl, ?_, ?_⟩
  · unfold documentCookies guestUserInit
    rw [List.filter_eq_nil_iff]
    intro c hc
    simp only [List.mem_filter] at hc
    simp [hc.2]
  · intro c hc hhttp
    rw [guestUserInit]
    simp only [List.mem_filter]
    exact ⟨hc, hhttp⟩

/-- Witness for C6's amended theorem at a concrete browser state holding
one `HttpOnly` session cookie and one visible cookie. -/
theorem guestUser_clears_visible_state_witness :
    (guestUserInit
        { localStorage := [(['k'], ['v'])],
          cookies := [{ name := ['s'], value := ['1'], httpOnly := true },
                      { name := ['c'], value := ['2'], httpOnly := false }] }).localStorage =
      [] ∧
    documentCookies
        (guestUserInit
          { localStorage := [(['k'], ['v'])],
            cookies := [{ name := ['s'], value := ['1'], httpOnly := true },
                        { name := ['c'], value := ['2'], httpOnly := false }] }) =
      [] ∧
    { name := ['s'], value := ['1'], httpOnly := true } ∈
      (guestUserInit
          { localStorage := [(['k'], ['v'])],
            cookies := [{ name := ['s'], value := ['1'], httpOnly := true },
                        { name := ['c'], value := ['2'], httpOnly := false }] }).cookies := by
  obtain ⟨h1, h2, h3⟩ := guestUser_clears_visible_state
    { localStorage := [(['k'], ['v'])],
      cookies := [{ name := ['s'], value := ['1'], httpOnly := true },
                  { name := ['c'], value := ['2'], httpOnly := false }] }
  exact ⟨h1, h2,
    h3 { name := ['s'], value := ['1'], httpOnly := true } (by decide) rfl⟩

/-- C7 counterexample: when the dashboard is loaded and the welcome
message is `"Welcome Bob"`, calling `verifyUserLoggedIn("")` returns
`true` although the captured name `"Bob"` differs from the expected name
`""` — the JavaScript truthiness guard `if (expectedName)` treats the
provided empty string as omitted, refuting the claim's "if and only if"
for every provided expected name. -/
theorem verifyUserLoggedIn_empty_expected_counterexample :
    DashboardPage.verifyUserLoggedIn
        { titleExists := true, welcomeMessage := "Welcome Bob".data } (some []) =
      true ∧
    DashboardPage.getUserName
        { titleExists := true, welcomeMessage := "Welcome Bob".data } =
      some "Bob".data ∧
    ("Bob".data : Str) ≠ ([] : Str) := by
  decide

/-- C7 (amended): `verifyUserLoggedIn` returns `false` whenever the
dashboard title is absent; when the title exists and a *non-empty*
expected name is provided it returns `true` iff the `/Welcome (.+)/`
capture equals that name; when the expected name is omitted (or is the
empty string, which the truthiness guard treats as omitted) it returns
`true` whenever the dashboard is loaded. -/
theorem verifyUserLoggedIn_spec (d : DashboardDom) (n : Str) :
    (DashboardPage.isLoaded d = false →
      DashboardPage.verifyUserLoggedIn d (some n) = false ∧
      DashboardPage.verifyUserLoggedIn d none = false) ∧
    (DashboardPage.isLoaded d = true →
      DashboardPage.verifyUserLoggedIn d none = true ∧
      DashboardPage.verifyUserLoggedIn d (some []) = true) ∧
    (DashboardPage.isLoaded d = true → n ≠ [] →
      (DashboardPage.verifyUserLoggedIn d (some n) = true ↔
        DashboardPage.getUserName d = some n)) := by
  refine ⟨?_, ?_, ?_⟩
  · intro h
    constructor <;> simp [DashboardPage.verifyUserLoggedIn, h]
  · intro h
    constructor <;> simp [DashboardPage.verifyUserLoggedIn, h]
  · intro h hn
    have hne : n.isEmpty = false := by
      cases n with
      | nil => exact absurd rfl hn
      | cons c cs => rfl
    simp [DashboardPage.verifyUserLoggedIn, h, hne]

/-- Witness for C7's amended theorem at a loaded dashboard showing
`"Welcome Bob"` and the expected name `"Bob"`. -/
theorem verifyUserLoggedIn_spec_witness :
    DashboardPage.verifyUserLoggedIn
        { titleExists := true, welcomeMessage := "Welcome Bob".data }
        (some "Bob".data) = true :=
  ((verifyUserLoggedIn_spec
      { titleExists := true, welcomeMessage := "Welcome Bob".data }
      "Bob".data).2.2 rfl (by decide)).mpr (by decide)

/-- C8: for every path `p`, `BasePage.navigate(p)` directs the browser to
exactly the concatenation of the page object's base URL and `p`, where the
base URL defaults to `"http://localhost:3001"` and the API server is
separately addressed at `"http://localhost:3000"`. -/
theorem navigate_builds_base_plus_path (path : String) :
    BasePage.navigate BasePage.defaultBaseUrl path =
      "http://localhost:3001" ++ path ∧
    BasePage.defaultBaseUrl = "http://localhost:3001" ∧
    BasePage.apiBaseUrl = "http://localhost:3000" :=
  ⟨rfl, rfl, rfl⟩

/-- C9: for every state of the todos list,
`getIncompleteTodosCount() = getTodoCount() - getCompletedTodosCount()`,
the completed count plus the incomplete count equals the total count, and
the completed count never exceeds the total. -/
theorem completed_incomplete_partition (dom : TodosDom) :
    TodosPage.getIncompleteTodosCount dom =
      TodosPage.getTodoCount dom - TodosPage.getCompletedTodosCount dom ∧
    TodosPage.getCompletedTodosCount dom + TodosPage.getIncompleteTodosCount dom =
      TodosPage.getTodoCount dom ∧
    TodosPage.getCompletedTodosCount dom ≤ TodosPage.getTodoCount dom := by
  have hle : TodosPage.getCompletedTodosCount dom ≤ TodosPage.getTodoCount dom :=
    List.countP_le_length _
  refine ⟨rfl, ?_, hle⟩
  unfold TodosPage.getIncompleteTodosCount
  omega

/-- C10: for every rendered timestamp and random suffix, the strings
produced by `generateTodoText` and `generateName` match the cleanup
pattern `/^Test (Todo|User)/` of `getTestDataPattern()`, while the strings
produced by `generateEmail` and `generatePassword` never match it. -/
theorem generators_vs_cleanup_pattern (ts rand : Str) :
    TestHelpers.matchesTestDataPattern (TestHelpers.generateTodoText ts rand) = true ∧
    TestHelpers.matchesTestDataPattern (TestHelpers.generateName ts) = true ∧
    TestHelpers.matchesTestDataPattern (TestHelpers.generateEmail ts rand) = false ∧
    TestHelpers.matchesTestDataPattern (TestHelpers.generatePassword ts) = false := by
  refine ⟨?_, ?_, ?_, ?_⟩
  · have h : TestHelpers.generateTodoText ts rand =
        "Test Todo".data ++ (' ' :: (ts ++ " - ".data ++ rand)) := rfl
    simp [TestHelpers.matchesTestDataPattern, h, isPrefixOf_append_self]
  · have h : TestHelpers.generateName ts =
        "Test User".data ++ (' ' :: ts) := rfl
    simp [TestHelpers.matchesTestDataPattern, h, isPrefixOf_append_self]
  · have e1 : ("Test Todo".data).isPrefixOf (TestHelpers.generateEmail ts rand) =
        false :=
      isPrefixOf_false_of_mid_ne [] (a := 'T') (b := 't') (by decide)
        "est Todo".data ("est-".data ++ ts ++ "-".data ++ rand ++ "@example.com".data)
    have e2 : ("Test User".data).isPrefixOf (TestHelpers.generateEmail ts rand) =
        false :=
      isPrefixOf_false_of_mid_ne [] (a := 'T') (b := 't') (by decide)
        "est User".data ("est-".data ++ ts ++ "-".data ++ rand ++ "@example.com".data)
    simp [TestHelpers.matchesTestDataPattern, e1, e2]
  · have p1 : ("Test Todo".data).isPrefixOf (TestHelpers.generatePassword ts) =
        false :=
      isPrefixOf_false_of_mid_ne "Test".data (a := ' ') (b := 'P') (by decide)
        "Todo".data ("ass".data ++ ts ++ "!".data)
    have p2 : ("Test User".data).isPrefixOf (TestHelpers.generatePassword ts) =
        false :=
      isPrefixOf_false_of_mid_ne "Test".data (a := ' ') (b := 'P') (by decide)
        "User".data ("ass".data ++ ts ++ "!".data)
    simp [TestHelpers.matchesTestDataPattern, p1, p2]

end TestCafeApp
